import Mathlib

/-!
# vtableEmulation: the collision-function registry and its dispatch

A shallow embedding of `vtableEmulation.cpp`.

* The process-wide state the program reads and writes is the collision map
  (the function-local static behind `getCollisionMap`) and the text written
  to `std::cout`; both are fields of `ProgramState`.
* `std::map<gameObjectNames, collisionFunctionPtr>` is a list of entries
  kept in ascending key order with no key twice; `insert` leaves the map
  as it is when the key is already there, `find` yields the entry of a key.
* A `collisionFunctionPtr` is a function pointer and may be null:
  `Option Fn`, with `none` for `nullptr`, where `Fn` is the type of the
  addresses of functions.  What a call through a non-null pointer does to
  the program state is the parameter `call` of `processCollision`.
* `type_info` is observed by the program through `name()` only.  The
  strings are implementation-defined; the ones below are those of the
  Microsoft compiler the project is written for (`pch.h`, unqualified
  `type_info`).
-/

namespace gamestuff

/-- The three concrete classes derived from `GameObject`, each with its
`_name` and `_maxSpeed`. -/
inductive GameObject where
  | Spaceship (_name : String) (_maxSpeed : Float)
  | Spacestation (_name : String) (_maxSpeed : Float)
  | Asteroid (_name : String) (_maxSpeed : Float)

/-- The overrides of `GameObject::out`: write the object to the stream. -/
def GameObject.out : GameObject → String → String
  | .Spaceship _name _, stream => stream ++ "Spaceship: " ++ _name
  | .Spacestation _name _, stream => stream ++ "Spacestation: " ++ _name
  | .Asteroid _name _, stream => stream ++ "Asteroid: " ++ _name

/-- As far as the program looks at it, a `type_info` is its `name()`. -/
structure type_info where
  name : String
deriving DecidableEq, Repr

/-- `typeid( gamestuff::Spaceship )`. -/
def typeid_Spaceship : type_info := ⟨"class gamestuff::Spaceship"⟩

/-- `typeid( gamestuff::Spacestation )`. -/
def typeid_Spacestation : type_info := ⟨"class gamestuff::Spacestation"⟩

/-- `typeid( gamestuff::Asteroid )`. -/
def typeid_Asteroid : type_info := ⟨"class gamestuff::Asteroid"⟩

/-- `typeid(obj)` of a reference to a polymorphic object: the `type_info` of
its dynamic type. -/
def typeid : GameObject → type_info
  | .Spaceship _ _ => typeid_Spaceship
  | .Spacestation _ _ => typeid_Spacestation
  | .Asteroid _ _ => typeid_Asteroid

/-- A pointer to a function `void ( const GameObject&, const GameObject& )`,
possibly null; `Fn` is the type of function addresses. -/
abbrev collisionFunctionPtr (Fn : Type) := Option Fn

/-- `std::pair<std::string, std::string>`. -/
abbrev gameObjectNames := String × String

/-- Lexicographic comparison of two character sequences, character by
character by their codes. -/
def lexicographicalLess : List Char → List Char → Bool
  | _, [] => false
  | [], _ :: _ => true
  | a :: x, b :: y =>
    if a.toNat < b.toNat then true
    else if b.toNat < a.toNat then false
    else lexicographicalLess x y

/-- `operator<` of `std::string`. -/
def stringLess (x y : String) : Bool := lexicographicalLess x.data y.data

/-- `operator<` of `std::pair`, the key order of the map. -/
def gameObjectNames.less (x y : gameObjectNames) : Bool :=
  stringLess x.1 y.1 || (!stringLess y.1 x.1 && stringLess x.2 y.2)

/-- `std::map< gameObjectNames, collisionFunctionPtr >`: its entries in key
order. -/
abbrev collisionMap (Fn : Type) := List (gameObjectNames × collisionFunctionPtr Fn)

namespace collisionMap

variable {Fn : Type}

/-- `std::map::find`: the mapped value of the entry with key `key`, `none`
for `end()`. -/
def find : collisionMap Fn → gameObjectNames → Option (collisionFunctionPtr Fn)
  | [], _ => none
  | (k, v) :: rest, key => if k = key then some v else find rest key

/-- Where `std::map::insert` puts an entry whose key is not in the map:
before the first entry with a greater key. -/
def place (value : gameObjectNames × collisionFunctionPtr Fn) :
    collisionMap Fn → collisionMap Fn
  | [] => [value]
  | entry :: rest =>
    if gameObjectNames.less value.1 entry.1 then value :: entry :: rest
    else entry :: place value rest

/-- `std::map::insert`: nothing happens when the key is already in the map,
otherwise the entry is added at its place in the key order. -/
def insert (theMap : collisionMap Fn)
    (value : gameObjectNames × collisionFunctionPtr Fn) : collisionMap Fn :=
  match find theMap value.1 with
  | some _ => theMap
  | none => place value theMap

/-- `std::map::size`. -/
def size (theMap : collisionMap Fn) : Nat := theMap.length

/-- `std::map::count`: the number of entries with key `key`. -/
def count (theMap : collisionMap Fn) (key : gameObjectNames) : Nat :=
  (theMap.filter (fun entry => decide (entry.1 = key))).length

end collisionMap

/-- The state of the process that the program reads and writes: the map
behind `getCollisionMap` and what has been written to `std::cout`. -/
structure ProgramState (Fn : Type) where
  theMap : collisionMap Fn
  cout : String

/-- `RegisterCollisionMap::RegisterCollisionMapFunction`. -/
def RegisterCollisionMapFunction {Fn : Type} (obj1 obj2 : type_info)
    (ptrFunction : collisionFunctionPtr Fn) (isSymmetric : Bool)
    (st : ProgramState Fn) : ProgramState Fn :=
  let cout := st.cout ++ "Registering function for collision between " ++
    obj1.name ++ " and " ++ obj2.name ++ "\n"
  let gameObjects : gameObjectNames := (obj1.name, obj2.name)
  let theMap := st.theMap.insert (gameObjects, ptrFunction)
  if isSymmetric then
    let gameObjectsSwapped : gameObjectNames := (obj2.name, obj1.name)
    { theMap := theMap.insert (gameObjectsSwapped, ptrFunction), cout := cout }
  else
    { theMap := theMap, cout := cout }

end gamestuff

open gamestuff

/-- `findCollisionFunction`: the function pointer registered for the two
type names, `nullptr` when the map has no entry for them. -/
def findCollisionFunction {Fn : Type} (theMap : collisionMap Fn)
    (name1 name2 : String) : collisionFunctionPtr Fn :=
  match theMap.find (name1, name2) with
  | none => none
  | some second => second

/-- `processCollision`; `call` is what calling a function through its
address does to the program state. -/
def processCollision {Fn : Type}
    (call : Fn → GameObject → GameObject → ProgramState Fn → ProgramState Fn)
    (obj1 obj2 : GameObject) (st : ProgramState Fn) : ProgramState Fn :=
  match findCollisionFunction st.theMap (typeid obj1).name (typeid obj2).name with
  | none => { st with cout := st.cout ++ "No collision function pointer exists\n" }
  | some collisionFncPtr => call collisionFncPtr obj1 obj2 st

/-- `CollisionRegister::CollisionRegister`. -/
def CollisionRegister {Fn : Type} (obj1 obj2 : type_info)
    (pfnc : collisionFunctionPtr Fn) (symmetric : Bool)
    (st : ProgramState Fn) : ProgramState Fn :=
  RegisterCollisionMapFunction obj1 obj2 pfnc symmetric st

/-- `processSpaceshipSpaceshipCollision`, as what it writes to `std::cout`. -/
def processSpaceshipSpaceshipCollision (ship1 ship2 : GameObject) (cout : String) : String :=
  ship2.out (ship1.out (cout ++ "Collision between 2 spaceships: ") ++ " and ") ++ "\n"

/-- `processSpaceshipSpacestaionCollision`. -/
def processSpaceshipSpacestaionCollision (ship station : GameObject) (cout : String) : String :=
  station.out (ship.out (cout ++ "Collision between spaceship and spacestation: ") ++ " and ")
    ++ "\n"

/-- `processAsteroidSpacestaionCollision`. -/
def processAsteroidSpacestaionCollision (asteroid station : GameObject) (cout : String) :
    String :=
  station.out (asteroid.out (cout ++ "Collision between asteroid and spacestation: ") ++ " and ")
    ++ "\n"

/-- `processSpaceshipAsteroidCollision`. -/
def processSpaceshipAsteroidCollision (ship asteroid : GameObject) (cout : String) : String :=
  asteroid.out (ship.out (cout ++ "Collision between spaceship and asteroid: ") ++ " and ")
    ++ "\n"

/-- The addresses of the four collision functions of the program. -/
inductive CollisionFunction where
  | processSpaceshipSpaceshipCollision
  | processSpaceshipSpacestaionCollision
  | processAsteroidSpacestaionCollision
  | processSpaceshipAsteroidCollision
deriving DecidableEq, Repr

/-- A call through a pointer to one of the four collision functions. -/
def callCollisionFunction (f : CollisionFunction) (lhs rhs : GameObject)
    (st : ProgramState CollisionFunction) : ProgramState CollisionFunction :=
  match f with
  | .processSpaceshipSpaceshipCollision =>
    { st with cout := processSpaceshipSpaceshipCollision lhs rhs st.cout }
  | .processSpaceshipSpacestaionCollision =>
    { st with cout := processSpaceshipSpacestaionCollision lhs rhs st.cout }
  | .processAsteroidSpacestaionCollision =>
    { st with cout := processAsteroidSpacestaionCollision lhs rhs st.cout }
  | .processSpaceshipAsteroidCollision =>
    { st with cout := processSpaceshipAsteroidCollision lhs rhs st.cout }

/-- The state before any static object is constructed: the map is empty and
nothing has been written. -/
def initialState (Fn : Type) : ProgramState Fn := { theMap := [], cout := "" }

/-- The four static `CollisionRegister` objects `spaceships`,
`spaceshipAsteroid`, `spaceshipSpacestation` and `spacestationAsteroid`,
constructed in the order of their definitions. -/
def bootstrap : ProgramState CollisionFunction :=
  let spaceships := CollisionRegister typeid_Spaceship typeid_Spaceship
    (some .processSpaceshipSpaceshipCollision) false (initialState CollisionFunction)
  let spaceshipAsteroid := CollisionRegister typeid_Spaceship typeid_Asteroid
    (some .processSpaceshipAsteroidCollision) true spaceships
  let spaceshipSpacestation := CollisionRegister typeid_Spaceship typeid_Spacestation
    (some .processSpaceshipSpacestaionCollision) true spaceshipAsteroid
  CollisionRegister typeid_Asteroid typeid_Spacestation
    (some .processAsteroidSpacestaionCollision) true spaceshipSpacestation

/-- The state once the static object `spaceships` is constructed. -/
def spaceships : ProgramState CollisionFunction :=
  CollisionRegister typeid_Spaceship typeid_Spaceship
    (some .processSpaceshipSpaceshipCollision) false (initialState CollisionFunction)

/-- The state once the static object `spaceshipAsteroid` is constructed. -/
def spaceshipAsteroid : ProgramState CollisionFunction :=
  CollisionRegister typeid_Spaceship typeid_Asteroid
    (some .processSpaceshipAsteroidCollision) true spaceships

/-- The state once the static object `spaceshipSpacestation` is constructed. -/
def spaceshipSpacestation : ProgramState CollisionFunction :=
  CollisionRegister typeid_Spaceship typeid_Spacestation
    (some .processSpaceshipSpacestaionCollision) true spaceshipAsteroid

/-- The state once the static object `spacestationAsteroid` is constructed. -/
def spacestationAsteroid : ProgramState CollisionFunction :=
  CollisionRegister typeid_Asteroid typeid_Spacestation
    (some .processAsteroidSpacestaionCollision) true spaceshipSpacestation

/-- The state after `RegisterCollisionMapFunction( typeid(Spaceship),
typeid(Asteroid), nullptr, true )` in the empty registry: both directions
hold an entry whose function pointer is null. -/
def spaceshipAsteroidNull : ProgramState CollisionFunction :=
  RegisterCollisionMapFunction typeid_Spaceship typeid_Asteroid none true
    (initialState CollisionFunction)

/-- The state after `RegisterCollisionMapFunction( typeid(Spaceship),
typeid(Spaceship), nullptr, false )` in the empty registry: the self-pair
holds an entry whose function pointer is null. -/
def spaceshipsNull : ProgramState CollisionFunction :=
  RegisterCollisionMapFunction typeid_Spaceship typeid_Spaceship none false
    (initialState CollisionFunction)

/-- The registry of the end-to-end scenario: Spaceship x Spaceship registered
with `isSymmetric = false`, then Spaceship x Asteroid and Spacestation x
Asteroid with `isSymmetric = true`, starting from the empty registry. -/
def endToEndRegistry {Fn : Type} (shipShip shipRock stationRock : Fn) : ProgramState Fn :=
  RegisterCollisionMapFunction typeid_Spacestation typeid_Asteroid (some stationRock) true
    (RegisterCollisionMapFunction typeid_Spaceship typeid_Asteroid (some shipRock) true
      (RegisterCollisionMapFunction typeid_Spaceship typeid_Spaceship (some shipShip) false
        (initialState Fn)))

/-- Whether two objects are of the same concrete class. -/
def gamestuff.GameObject.sameClass : GameObject → GameObject → Bool
  | .Spaceship _ _, .Spaceship _ _ => true
  | .Spacestation _ _, .Spacestation _ _ => true
  | .Asteroid _ _, .Asteroid _ _ => true
  | _, _ => false

/-- A finite sequence of calls `RegisterCollisionMapFunction(A, B, h, true)`,
one per element of `calls` and in their order, made from the empty
registry. -/
def registerSymmetricSequence {Fn : Type}
    (calls : List (type_info × type_info × collisionFunctionPtr Fn)) : ProgramState Fn :=
  calls.foldl
    (fun st c => RegisterCollisionMapFunction c.1 c.2.1 c.2.2 true st) (initialState Fn)

/-! ## The map: what `find` sees after `insert` -/

namespace gamestuff.collisionMap

variable {Fn : Type}

theorem find_place_self (key : gameObjectNames) (v : collisionFunctionPtr Fn)
    (theMap : collisionMap Fn) (hnone : theMap.find key = none) :
    (place (key, v) theMap).find key = some v := by
  induction theMap with
  | nil => simp [place, find]
  | cons entry rest ih =>
    obtain ⟨k, w⟩ := entry
    by_cases hk : k = key
    · simp [find, hk] at hnone
    · have hrest : find rest key = none := by simpa [find, hk] using hnone
      by_cases hlt : gameObjectNames.less key k = true
      · simp [place, find, hlt]
      · simp [place, find, hlt, hk, ih hrest]

theorem find_place_ne (key other : gameObjectNames) (v : collisionFunctionPtr Fn)
    (theMap : collisionMap Fn) (hne : other ≠ key) :
    (place (key, v) theMap).find other = theMap.find other := by
  have hne' : ¬ key = other := fun h => hne h.symm
  induction theMap with
  | nil => simp [place, find, hne']
  | cons entry rest ih =>
    obtain ⟨k, w⟩ := entry
    by_cases hlt : gameObjectNames.less key k = true
    · simp [place, find, hlt, hne']
    · by_cases hk : k = other
      · subst hk
        simp [place, find, hlt]
      · simp [place, find, hlt, hk, ih]

theorem length_place (value : gameObjectNames × collisionFunctionPtr Fn)
    (theMap : collisionMap Fn) : (place value theMap).length = theMap.length + 1 := by
  induction theMap with
  | nil => simp [place]
  | cons entry rest ih =>
    by_cases hlt : gameObjectNames.less value.1 entry.1 = true
    · simp [place, hlt]
    · simp [place, hlt, ih]

theorem count_place_self (key : gameObjectNames) (v : collisionFunctionPtr Fn)
    (theMap : collisionMap Fn) :
    count (place (key, v) theMap) key = count theMap key + 1 := by
  induction theMap with
  | nil => simp [place, count]
  | cons entry rest ih =>
    obtain ⟨k, w⟩ := entry
    simp only [count] at ih
    by_cases hlt : gameObjectNames.less key k = true
    · simp [place, count, hlt]
    · by_cases hk : k = key
      · subst hk
        simp [place, count, hlt, ih]
      · simp [place, count, hlt, hk, ih]

theorem count_eq_zero_of_find_none (key : gameObjectNames) (theMap : collisionMap Fn)
    (hnone : theMap.find key = none) : count theMap key = 0 := by
  induction theMap with
  | nil => simp [count]
  | cons entry rest ih =>
    obtain ⟨k, w⟩ := entry
    by_cases hk : k = key
    · simp [find, hk] at hnone
    · have hrest : find rest key = none := by simpa [find, hk] using hnone
      have := ih hrest
      simp only [count] at this
      simp [count, hk, this]

theorem insert_of_find_some (theMap : collisionMap Fn)
    (value : gameObjectNames × collisionFunctionPtr Fn) (g : collisionFunctionPtr Fn)
    (hsome : theMap.find value.1 = some g) : theMap.insert value = theMap := by
  simp [insert, hsome]

theorem insert_of_find_none (theMap : collisionMap Fn)
    (value : gameObjectNames × collisionFunctionPtr Fn)
    (hnone : theMap.find value.1 = none) : theMap.insert value = place value theMap := by
  simp [insert, hnone]

theorem find_insert_self_of_none (key : gameObjectNames) (v : collisionFunctionPtr Fn)
    (theMap : collisionMap Fn) (hnone : theMap.find key = none) :
    (theMap.insert (key, v)).find key = some v := by
  rw [insert_of_find_none _ _ hnone]
  exact find_place_self key v theMap hnone

theorem find_insert_ne (key other : gameObjectNames) (v : collisionFunctionPtr Fn)
    (theMap : collisionMap Fn) (hne : other ≠ key) :
    (theMap.insert (key, v)).find other = theMap.find other := by
  cases hfind : theMap.find key with
  | none =>
    rw [insert_of_find_none _ _ hfind]
    exact find_place_ne key other v theMap hne
  | some g => rw [insert_of_find_some _ _ g hfind]

theorem find_insert_of_some (key other : gameObjectNames) (v g : collisionFunctionPtr Fn)
    (theMap : collisionMap Fn) (hsome : theMap.find other = some g) :
    (theMap.insert (key, v)).find other = some g := by
  by_cases hne : other = key
  · subst hne
    rw [insert_of_find_some _ _ g hsome, hsome]
  · rw [find_insert_ne key other v theMap hne, hsome]

/-- After `insert`, the key maps to what it mapped to before, and to the
inserted value when it had no entry. -/
theorem find_insert_self (key : gameObjectNames) (v : collisionFunctionPtr Fn)
    (theMap : collisionMap Fn) :
    (theMap.insert (key, v)).find key = some ((theMap.find key).getD v) := by
  cases hfind : theMap.find key with
  | none => simpa using find_insert_self_of_none key v theMap hfind
  | some g => simpa using find_insert_of_some key key v g theMap hfind

end gamestuff.collisionMap

/-! ## Registration, step by step -/

theorem theMap_register_false {Fn : Type} (obj1 obj2 : type_info)
    (ptrFunction : collisionFunctionPtr Fn) (st : ProgramState Fn) :
    (RegisterCollisionMapFunction obj1 obj2 ptrFunction false st).theMap
      = st.theMap.insert ((obj1.name, obj2.name), ptrFunction) := by
  simp [RegisterCollisionMapFunction]

theorem theMap_register_true {Fn : Type} (obj1 obj2 : type_info)
    (ptrFunction : collisionFunctionPtr Fn) (st : ProgramState Fn) :
    (RegisterCollisionMapFunction obj1 obj2 ptrFunction true st).theMap
      = (st.theMap.insert ((obj1.name, obj2.name), ptrFunction)).insert
          ((obj2.name, obj1.name), ptrFunction) := by
  simp [RegisterCollisionMapFunction]

theorem cout_register {Fn : Type} (obj1 obj2 : type_info)
    (ptrFunction : collisionFunctionPtr Fn) (isSymmetric : Bool) (st : ProgramState Fn) :
    (RegisterCollisionMapFunction obj1 obj2 ptrFunction isSymmetric st).cout
      = st.cout ++ "Registering function for collision between " ++
          obj1.name ++ " and " ++ obj2.name ++ "\n" := by
  cases isSymmetric <;> simp [RegisterCollisionMapFunction]

theorem findCollisionFunction_of_find {Fn : Type} (theMap : collisionMap Fn)
    (name1 name2 : String) (second : collisionFunctionPtr Fn)
    (hfind : theMap.find (name1, name2) = some second) :
    findCollisionFunction theMap name1 name2 = second := by
  simp [findCollisionFunction, hfind]

theorem findCollisionFunction_of_find_eq {Fn : Type} (theMap theMap' : collisionMap Fn)
    (name1 name2 : String) (hfind : theMap.find (name1, name2) = theMap'.find (name1, name2)) :
    findCollisionFunction theMap name1 name2 = findCollisionFunction theMap' name1 name2 := by
  simp [findCollisionFunction, hfind]

/-! ## The claims -/

/-- C1, refuted: both directions of (Spaceship, Asteroid) hold an entry whose
function pointer is null, so neither has a handler: `findCollisionFunction`
returns `nullptr` for both.  The symmetric registration of the ship-asteroid
handler finds both keys in the map and inserts nothing; both lookups still
return `nullptr`, not the handler. -/
theorem symmetric_register_over_null_entries_finds_nothing :
    findCollisionFunction spaceshipAsteroidNull.theMap
        typeid_Spaceship.name typeid_Asteroid.name = none
    ∧ findCollisionFunction spaceshipAsteroidNull.theMap
        typeid_Asteroid.name typeid_Spaceship.name = none
    ∧ findCollisionFunction (RegisterCollisionMapFunction typeid_Spaceship typeid_Asteroid
          (some CollisionFunction.processSpaceshipAsteroidCollision) true
          spaceshipAsteroidNull).theMap
        typeid_Spaceship.name typeid_Asteroid.name = none
    ∧ findCollisionFunction (RegisterCollisionMapFunction typeid_Spaceship typeid_Asteroid
          (some CollisionFunction.processSpaceshipAsteroidCollision) true
          spaceshipAsteroidNull).theMap
        typeid_Asteroid.name typeid_Spaceship.name = none
    ∧ ¬ (findCollisionFunction (RegisterCollisionMapFunction typeid_Spaceship typeid_Asteroid
            (some CollisionFunction.processSpaceshipAsteroidCollision) true
            spaceshipAsteroidNull).theMap
          typeid_Spaceship.name typeid_Asteroid.name
          = some CollisionFunction.processSpaceshipAsteroidCollision
        ∧ findCollisionFunction (RegisterCollisionMapFunction typeid_Spaceship typeid_Asteroid
            (some CollisionFunction.processSpaceshipAsteroidCollision) true
            spaceshipAsteroidNull).theMap
          typeid_Asteroid.name typeid_Spaceship.name
          = some CollisionFunction.processSpaceshipAsteroidCollision) := by
  decide

/-- C1, amended: when neither (A,B) nor (B,A) has an entry in the registry,
not even one whose function pointer is null, then after
`RegisterCollisionMapFunction(A, B, h, isSymmetric = true)` both
`findCollisionFunction(A,B)` and `findCollisionFunction(B,A)` return `h`. -/
theorem findCollisionFunction_after_symmetric_register {Fn : Type} (st : ProgramState Fn)
    (A B : type_info) (h : collisionFunctionPtr Fn)
    (hAB : st.theMap.find (A.name, B.name) = none)
    (hBA : st.theMap.find (B.name, A.name) = none) :
    findCollisionFunction (RegisterCollisionMapFunction A B h true st).theMap A.name B.name = h
    ∧ findCollisionFunction (RegisterCollisionMapFunction A B h true st).theMap B.name A.name
        = h := by
  rw [theMap_register_true]
  have h1 : (st.theMap.insert ((A.name, B.name), h)).find (A.name, B.name) = some h :=
    collisionMap.find_insert_self_of_none _ h _ hAB
  constructor
  · exact findCollisionFunction_of_find _ _ _ _
      (collisionMap.find_insert_of_some _ _ h h _ h1)
  · apply findCollisionFunction_of_find
    by_cases hkey : (B.name, A.name) = (A.name, B.name)
    · rw [hkey]
      exact collisionMap.find_insert_of_some _ _ h h _ h1
    · apply collisionMap.find_insert_self_of_none
      rw [collisionMap.find_insert_ne _ _ h _ hkey]
      exact hBA

/-- C1 amended, at the program's own symmetric registration of Spaceship and Asteroid
in the empty registry. -/
theorem findCollisionFunction_after_symmetric_register_witness :
    (initialState CollisionFunction).theMap.find
        (typeid_Spaceship.name, typeid_Asteroid.name) = none
    ∧ (initialState CollisionFunction).theMap.find
        (typeid_Asteroid.name, typeid_Spaceship.name) = none
    ∧ findCollisionFunction (RegisterCollisionMapFunction typeid_Spaceship typeid_Asteroid
          (some CollisionFunction.processSpaceshipAsteroidCollision) true
          (initialState CollisionFunction)).theMap
        typeid_Spaceship.name typeid_Asteroid.name
        = some CollisionFunction.processSpaceshipAsteroidCollision
    ∧ findCollisionFunction (RegisterCollisionMapFunction typeid_Spaceship typeid_Asteroid
          (some CollisionFunction.processSpaceshipAsteroidCollision) true
          (initialState CollisionFunction)).theMap
        typeid_Asteroid.name typeid_Spaceship.name
        = some CollisionFunction.processSpaceshipAsteroidCollision :=
  ⟨by decide, by decide,
    findCollisionFunction_after_symmetric_register (initialState CollisionFunction)
      typeid_Spaceship typeid_Asteroid
      (some CollisionFunction.processSpaceshipAsteroidCollision) (by decide) (by decide)⟩

/-- C2: when `findCollisionFunction(typeName(a), typeName(b))` returns a
handler `h`, `processCollision(a, b)` does exactly what the call `h(a, b)`
does, with the arguments in that order, whichever registration put `h`
there. -/
theorem processCollision_calls_found {Fn : Type}
    (call : Fn → GameObject → GameObject → ProgramState Fn → ProgramState Fn)
    (st : ProgramState Fn) (a b : GameObject) (h : Fn)
    (hfound : findCollisionFunction st.theMap (typeid a).name (typeid b).name = some h) :
    processCollision call a b st = call h a b st := by
  simp [processCollision, hfound]

set_option maxRecDepth 100000 in
/-- C2 at the program's bootstrap: the station and the asteroid, in this
order, reach `processAsteroidSpacestaionCollision`, registered for the
opposite order, and the station is written first. -/
theorem processCollision_calls_found_witness :
    findCollisionFunction bootstrap.theMap
        (typeid (GameObject.Spacestation "Deep space 9" 2)).name
        (typeid (GameObject.Asteroid "Hayley's Comet" 150)).name
      = some CollisionFunction.processAsteroidSpacestaionCollision
    ∧ (processCollision callCollisionFunction (GameObject.Spacestation "Deep space 9" 2)
        (GameObject.Asteroid "Hayley's Comet" 150) bootstrap).cout
      = bootstrap.cout ++ ("Collision between asteroid and spacestation: " ++
          "Spacestation: Deep space 9 and Asteroid: Hayley's Comet\n") := by
  refine ⟨by decide, ?_⟩
  rw [processCollision_calls_found callCollisionFunction bootstrap _ _
    CollisionFunction.processAsteroidSpacestaionCollision (by decide)]
  simp [callCollisionFunction, processAsteroidSpacestaionCollision, GameObject.out,
    String.append_assoc]

/-- C3: when the lookup for the ordered pair of the types of `a` and `b`
finds no handler (in particular when the registry has no entry for the pair),
`processCollision(a, b)` returns normally, its only effect is the line
"No collision function pointer exists" on the output, whatever calling a
handler would do, and the registry is the one before the call. -/
theorem processCollision_not_handled {Fn : Type}
    (call : Fn → GameObject → GameObject → ProgramState Fn → ProgramState Fn)
    (st : ProgramState Fn) (a b : GameObject)
    (hnone : findCollisionFunction st.theMap (typeid a).name (typeid b).name = none) :
    processCollision call a b st
      = { theMap := st.theMap, cout := st.cout ++ "No collision function pointer exists\n" } := by
  simp [processCollision, hnone]

/-- C3 at the program's bootstrap, which registers nothing for two
asteroids. -/
theorem processCollision_not_handled_witness :
    findCollisionFunction bootstrap.theMap
        (typeid (GameObject.Asteroid "Hayley's Comet" 150)).name
        (typeid (GameObject.Asteroid "Ceres" 40)).name = none
    ∧ processCollision callCollisionFunction (GameObject.Asteroid "Hayley's Comet" 150)
        (GameObject.Asteroid "Ceres" 40) bootstrap
      = { theMap := bootstrap.theMap,
          cout := bootstrap.cout ++ "No collision function pointer exists\n" } :=
  ⟨by decide,
    processCollision_not_handled callCollisionFunction bootstrap
      (GameObject.Asteroid "Hayley's Comet" 150) (GameObject.Asteroid "Ceres" 40) (by decide)⟩

/-- C4, refuted: the registry already holds a handler for
(Spaceship, Spaceship), the call registers that pair again, and the program
state it leaves is the very state a registration into the empty registry
leaves: the map, and the one line written.  The function returns `void`, so
nothing tells the second registration from a first one. -/
theorem register_occupied_same_as_fresh :
    let occupied : ProgramState CollisionFunction :=
      { theMap := [((typeid_Spaceship.name, typeid_Spaceship.name),
          some CollisionFunction.processSpaceshipSpaceshipCollision)], cout := "" }
    occupied.theMap.find (typeid_Spaceship.name, typeid_Spaceship.name)
        = some (some CollisionFunction.processSpaceshipSpaceshipCollision)
    ∧ (initialState CollisionFunction).theMap.find
        (typeid_Spaceship.name, typeid_Spaceship.name) = none
    ∧ RegisterCollisionMapFunction typeid_Spaceship typeid_Spaceship
        (some CollisionFunction.processSpaceshipSpaceshipCollision) false occupied
      = RegisterCollisionMapFunction typeid_Spaceship typeid_Spaceship
        (some CollisionFunction.processSpaceshipSpaceshipCollision) false
        (initialState CollisionFunction) := by
  refine ⟨by decide, by decide, ?_⟩
  simp [RegisterCollisionMapFunction, collisionMap.insert, collisionMap.find,
    collisionMap.place, initialState]

/-- C4, amended: registering a pair that already has an entry signals nothing.
The call writes the one line "Registering function for collision between A
and B", and that is what it writes from any state with the same output so
far, whether or not the pair is occupied there. -/
theorem register_occupied_writes_registering_line {Fn : Type} (st : ProgramState Fn)
    (A B : type_info) (g h : collisionFunctionPtr Fn) (isSymmetric : Bool)
    (hocc : st.theMap.find (A.name, B.name) = some g) :
    (RegisterCollisionMapFunction A B h isSymmetric st).cout
      = st.cout ++ "Registering function for collision between " ++
          A.name ++ " and " ++ B.name ++ "\n"
    ∧ ∀ st' : ProgramState Fn, st'.cout = st.cout →
        (RegisterCollisionMapFunction A B h isSymmetric st').cout
          = (RegisterCollisionMapFunction A B h isSymmetric st).cout := by
  have _ := hocc
  refine ⟨cout_register A B h isSymmetric st, ?_⟩
  intro st' hcout
  rw [cout_register, cout_register, hcout]

/-- C4 amended, at a second registration of (Spaceship, Spaceship). -/
theorem register_occupied_writes_registering_line_witness :
    (RegisterCollisionMapFunction typeid_Spaceship typeid_Spaceship
        (some CollisionFunction.processSpaceshipSpaceshipCollision) false
        (initialState CollisionFunction)).theMap.find
        (typeid_Spaceship.name, typeid_Spaceship.name)
      = some (some CollisionFunction.processSpaceshipSpaceshipCollision)
    ∧ (RegisterCollisionMapFunction typeid_Spaceship typeid_Spaceship
        (some CollisionFunction.processSpaceshipAsteroidCollision) true
        (RegisterCollisionMapFunction typeid_Spaceship typeid_Spaceship
          (some CollisionFunction.processSpaceshipSpaceshipCollision) false
          (initialState CollisionFunction))).cout
      = (RegisterCollisionMapFunction typeid_Spaceship typeid_Spaceship
          (some CollisionFunction.processSpaceshipSpaceshipCollision) false
          (initialState CollisionFunction)).cout ++
        "Registering function for collision between " ++
          typeid_Spaceship.name ++ " and " ++ typeid_Spaceship.name ++ "\n" :=
  ⟨by decide,
    (register_occupied_writes_registering_line
      (RegisterCollisionMapFunction typeid_Spaceship typeid_Spaceship
        (some CollisionFunction.processSpaceshipSpaceshipCollision) false
        (initialState CollisionFunction))
      typeid_Spaceship typeid_Spaceship
      (some CollisionFunction.processSpaceshipSpaceshipCollision)
      (some CollisionFunction.processSpaceshipAsteroidCollision) true (by decide)).1⟩

/-- What a symmetric registration leaves at the pair it names. -/
theorem find_register_true_pair {Fn : Type} (st : ProgramState Fn) (A B : type_info)
    (h : collisionFunctionPtr Fn) :
    (RegisterCollisionMapFunction A B h true st).theMap.find (A.name, B.name)
      = some ((st.theMap.find (A.name, B.name)).getD h) := by
  rw [theMap_register_true]
  exact collisionMap.find_insert_of_some _ _ h _ _
    (collisionMap.find_insert_self (A.name, B.name) h st.theMap)

/-- What a symmetric registration leaves at the swapped pair. -/
theorem find_register_true_swapped {Fn : Type} (st : ProgramState Fn) (A B : type_info)
    (h : collisionFunctionPtr Fn) :
    (RegisterCollisionMapFunction A B h true st).theMap.find (B.name, A.name)
      = some ((st.theMap.find (B.name, A.name)).getD h) := by
  rw [theMap_register_true, collisionMap.find_insert_self]
  by_cases hkey : (B.name, A.name) = (A.name, B.name)
  · rw [hkey, collisionMap.find_insert_self]
    simp
  · rw [collisionMap.find_insert_ne _ _ h _ hkey]

/-- A registration leaves every pair it does not name as it was. -/
theorem find_register_other {Fn : Type} (st : ProgramState Fn) (A B : type_info)
    (h : collisionFunctionPtr Fn) (isSymmetric : Bool) (key : gameObjectNames)
    (hAB : key ≠ (A.name, B.name)) (hBA : isSymmetric = true → key ≠ (B.name, A.name)) :
    (RegisterCollisionMapFunction A B h isSymmetric st).theMap.find key
      = st.theMap.find key := by
  cases isSymmetric with
  | false => rw [theMap_register_false, collisionMap.find_insert_ne _ _ h _ hAB]
  | true =>
    rw [theMap_register_true, collisionMap.find_insert_ne _ _ h _ (hBA rfl),
      collisionMap.find_insert_ne _ _ h _ hAB]

/-- C5, refuted: (Spaceship, Asteroid) has a handler and (Asteroid,
Spaceship) has none; registering (Spaceship, Asteroid) again with
`isSymmetric = true` adds an entry for (Asteroid, Spaceship), so the registry
is not the one before the call. -/
theorem register_occupied_symmetric_changes_registry :
    let before : ProgramState CollisionFunction :=
      RegisterCollisionMapFunction typeid_Spaceship typeid_Asteroid
        (some CollisionFunction.processSpaceshipAsteroidCollision) false
        (initialState CollisionFunction)
    let after := RegisterCollisionMapFunction typeid_Spaceship typeid_Asteroid
        (some CollisionFunction.processSpaceshipAsteroidCollision) true before
    before.theMap.find (typeid_Spaceship.name, typeid_Asteroid.name)
        = some (some CollisionFunction.processSpaceshipAsteroidCollision)
    ∧ after.theMap ≠ before.theMap
    ∧ before.theMap.find (typeid_Asteroid.name, typeid_Spaceship.name) = none
    ∧ after.theMap.find (typeid_Asteroid.name, typeid_Spaceship.name)
        = some (some CollisionFunction.processSpaceshipAsteroidCollision) := by
  decide

/-- C5, amended: when (A,B) already has an entry, the registration with
`isSymmetric = false` leaves the registry as it was; with
`isSymmetric = true` it leaves the registry as it was when (B,A) has an
entry too, and otherwise adds the one entry (B,A) -> h: one entry more,
(B,A) maps to `h`, every other pair maps to what it did. -/
theorem register_occupied_registry {Fn : Type} (st : ProgramState Fn)
    (A B : type_info) (g h : collisionFunctionPtr Fn)
    (hocc : st.theMap.find (A.name, B.name) = some g) :
    (RegisterCollisionMapFunction A B h false st).theMap = st.theMap
    ∧ (∀ g', st.theMap.find (B.name, A.name) = some g' →
        (RegisterCollisionMapFunction A B h true st).theMap = st.theMap)
    ∧ (st.theMap.find (B.name, A.name) = none →
        (RegisterCollisionMapFunction A B h true st).theMap.find (B.name, A.name) = some h
        ∧ (RegisterCollisionMapFunction A B h true st).theMap.size = st.theMap.size + 1
        ∧ ∀ key, key ≠ (B.name, A.name) →
            (RegisterCollisionMapFunction A B h true st).theMap.find key
              = st.theMap.find key) := by
  have hfirst : st.theMap.insert ((A.name, B.name), h) = st.theMap :=
    collisionMap.insert_of_find_some _ _ g hocc
  refine ⟨?_, ?_, ?_⟩
  · rw [theMap_register_false, hfirst]
  · intro g' hswapped
    rw [theMap_register_true, hfirst]
    exact collisionMap.insert_of_find_some _ _ g' hswapped
  · intro hvacant
    rw [theMap_register_true, hfirst]
    refine ⟨collisionMap.find_insert_self_of_none _ h _ hvacant, ?_, ?_⟩
    · rw [collisionMap.insert_of_find_none _ _ hvacant]
      exact collisionMap.length_place _ _
    · intro key hkey
      exact collisionMap.find_insert_ne _ _ h _ hkey

/-- C5 amended, at a second, symmetric registration of (Spaceship, Asteroid)
after an asymmetric one. -/
theorem register_occupied_registry_witness :
    let before : ProgramState CollisionFunction :=
      RegisterCollisionMapFunction typeid_Spaceship typeid_Asteroid
        (some CollisionFunction.processSpaceshipAsteroidCollision) false
        (initialState CollisionFunction)
    before.theMap.find (typeid_Spaceship.name, typeid_Asteroid.name)
        = some (some CollisionFunction.processSpaceshipAsteroidCollision)
    ∧ before.theMap.find (typeid_Asteroid.name, typeid_Spaceship.name) = none
    ∧ (RegisterCollisionMapFunction typeid_Spaceship typeid_Asteroid
        (some CollisionFunction.processSpaceshipSpaceshipCollision) false before).theMap
      = before.theMap
    ∧ (RegisterCollisionMapFunction typeid_Spaceship typeid_Asteroid
        (some CollisionFunction.processSpaceshipSpaceshipCollision) true before).theMap.size
      = before.theMap.size + 1 :=
  ⟨by decide, by decide,
    (register_occupied_registry _ typeid_Spaceship typeid_Asteroid
      (some CollisionFunction.processSpaceshipAsteroidCollision)
      (some CollisionFunction.processSpaceshipSpaceshipCollision) (by decide)).1,
    ((register_occupied_registry _ typeid_Spaceship typeid_Asteroid
      (some CollisionFunction.processSpaceshipAsteroidCollision)
      (some CollisionFunction.processSpaceshipSpaceshipCollision) (by decide)).2.2
        (by decide)).2.1⟩

/-- C6, refuted: Spaceship and Asteroid are distinct keys, (Spaceship,
Asteroid) is held by the ship-ship handler and (Asteroid, Spaceship) is
empty.  After the symmetric registration of the ship-asteroid handler the
first direction still maps to the ship-ship handler and the second maps to
the new one: not both map to the new handler, and the registry has changed. -/
theorem register_symmetric_inserts_one_direction :
    let before : ProgramState CollisionFunction :=
      RegisterCollisionMapFunction typeid_Spaceship typeid_Asteroid
        (some CollisionFunction.processSpaceshipSpaceshipCollision) false
        (initialState CollisionFunction)
    let h : collisionFunctionPtr CollisionFunction :=
      some CollisionFunction.processSpaceshipAsteroidCollision
    let after := RegisterCollisionMapFunction typeid_Spaceship typeid_Asteroid h true before
    typeid_Spaceship.name ≠ typeid_Asteroid.name
    ∧ ¬ ((after.theMap.find (typeid_Spaceship.name, typeid_Asteroid.name) = some h
          ∧ after.theMap.find (typeid_Asteroid.name, typeid_Spaceship.name) = some h)
        ∨ after.theMap = before.theMap)
    ∧ after.theMap.find (typeid_Spaceship.name, typeid_Asteroid.name)
        = before.theMap.find (typeid_Spaceship.name, typeid_Asteroid.name)
    ∧ before.theMap.find (typeid_Asteroid.name, typeid_Spaceship.name) = none
    ∧ after.theMap.find (typeid_Asteroid.name, typeid_Spaceship.name) = some h := by
  decide

/-- C6, amended: a symmetric registration inserts each direction on its own,
exactly when that direction has no entry.  After the call (A,B) maps to what
it mapped to before, or to `h` when it had no entry, and so does (B,A); every
other pair is as before; and when both directions had an entry the registry
is the one before the call. -/
theorem register_symmetric_each_direction {Fn : Type} (st : ProgramState Fn)
    (A B : type_info) (h : collisionFunctionPtr Fn) :
    (RegisterCollisionMapFunction A B h true st).theMap.find (A.name, B.name)
      = some ((st.theMap.find (A.name, B.name)).getD h)
    ∧ (RegisterCollisionMapFunction A B h true st).theMap.find (B.name, A.name)
      = some ((st.theMap.find (B.name, A.name)).getD h)
    ∧ (∀ key, key ≠ (A.name, B.name) → key ≠ (B.name, A.name) →
        (RegisterCollisionMapFunction A B h true st).theMap.find key = st.theMap.find key)
    ∧ ((st.theMap.find (A.name, B.name)).isSome = true →
        (st.theMap.find (B.name, A.name)).isSome = true →
        (RegisterCollisionMapFunction A B h true st).theMap = st.theMap) := by
  refine ⟨find_register_true_pair st A B h, find_register_true_swapped st A B h, ?_, ?_⟩
  · intro key hAB hBA
    exact find_register_other st A B h true key hAB (fun _ => hBA)
  · intro hpair hswapped
    obtain ⟨g, hg⟩ := Option.isSome_iff_exists.mp hpair
    obtain ⟨g', hg'⟩ := Option.isSome_iff_exists.mp hswapped
    rw [theMap_register_true,
      collisionMap.insert_of_find_some st.theMap ((A.name, B.name), h) g hg]
    exact collisionMap.insert_of_find_some _ _ g' hg'

/-- C6 amended, at the program's bootstrap, where both directions of
(Spaceship, Asteroid) are occupied: registering the pair again changes
nothing. -/
theorem register_symmetric_each_direction_witness :
    (bootstrap.theMap.find (typeid_Spaceship.name, typeid_Asteroid.name)).isSome = true
    ∧ (bootstrap.theMap.find (typeid_Asteroid.name, typeid_Spaceship.name)).isSome = true
    ∧ (RegisterCollisionMapFunction typeid_Spaceship typeid_Asteroid
        (some CollisionFunction.processSpaceshipSpaceshipCollision) true bootstrap).theMap
      = bootstrap.theMap :=
  ⟨by decide, by decide,
    (register_symmetric_each_direction bootstrap typeid_Spaceship typeid_Asteroid
      (some CollisionFunction.processSpaceshipSpaceshipCollision)).2.2.2
        (by decide) (by decide)⟩

/-- C7: a registration touches only the pairs it names.  For an ordered pair
(X,Y) other than (A,B), `findCollisionFunction(X,Y)` is the same before and
after `RegisterCollisionMapFunction(A, B, h, false)`, so a (B,A) different
from (A,B) that returned nothing still returns nothing; and when (X,Y) is
also other than (B,A), it is the same before and after the registration with
`isSymmetric = true`. -/
theorem findCollisionFunction_register_frame {Fn : Type} (st : ProgramState Fn)
    (A B : type_info) (h : collisionFunctionPtr Fn) (X Y : String)
    (hAB : (X, Y) ≠ (A.name, B.name)) :
    findCollisionFunction (RegisterCollisionMapFunction A B h false st).theMap X Y
      = findCollisionFunction st.theMap X Y
    ∧ ((X, Y) = (B.name, A.name) → findCollisionFunction st.theMap B.name A.name = none →
        findCollisionFunction (RegisterCollisionMapFunction A B h false st).theMap
          B.name A.name = none)
    ∧ ((X, Y) ≠ (B.name, A.name) →
        findCollisionFunction (RegisterCollisionMapFunction A B h true st).theMap X Y
          = findCollisionFunction st.theMap X Y) := by
  have hfalse : findCollisionFunction (RegisterCollisionMapFunction A B h false st).theMap X Y
      = findCollisionFunction st.theMap X Y :=
    findCollisionFunction_of_find_eq _ _ X Y
      (find_register_other st A B h false (X, Y) hAB (fun hs => by cases hs))
  refine ⟨hfalse, ?_, ?_⟩
  · intro hXY hnone
    have hX : X = B.name := congrArg Prod.fst hXY
    have hY : Y = A.name := congrArg Prod.snd hXY
    subst hX hY
    rw [hfalse, hnone]
  · intro hBA
    exact findCollisionFunction_of_find_eq _ _ X Y
      (find_register_other st A B h true (X, Y) hAB (fun _ => hBA))

/-- C7 at the asymmetric registration of (Spaceship, Asteroid) in the empty
registry: (Asteroid, Spaceship) had no handler and has none afterwards. -/
theorem findCollisionFunction_register_frame_witness :
    (typeid_Asteroid.name, typeid_Spaceship.name)
        ≠ (typeid_Spaceship.name, typeid_Asteroid.name)
    ∧ findCollisionFunction (initialState CollisionFunction).theMap
        typeid_Asteroid.name typeid_Spaceship.name = none
    ∧ findCollisionFunction (RegisterCollisionMapFunction typeid_Spaceship typeid_Asteroid
          (some CollisionFunction.processSpaceshipAsteroidCollision) false
          (initialState CollisionFunction)).theMap
        typeid_Asteroid.name typeid_Spaceship.name = none :=
  ⟨by decide, by decide,
    (findCollisionFunction_register_frame (initialState CollisionFunction)
      typeid_Spaceship typeid_Asteroid
      (some CollisionFunction.processSpaceshipAsteroidCollision)
      typeid_Asteroid.name typeid_Spaceship.name (by decide)).2.1 rfl (by decide)⟩

/-- C8, refuted: the self-pair (Spaceship, Spaceship) holds an entry whose
function pointer is null, so it has no handler: `findCollisionFunction`
returns `nullptr`.  The registration of the ship-ship handler with
`isSymmetric = false` finds the key in the map and inserts nothing: the
entry still holds the null pointer, not the handler, and the registry has as
many entries as before, not one more. -/
theorem register_self_pair_over_null_entry_adds_nothing :
    findCollisionFunction spaceshipsNull.theMap
        typeid_Spaceship.name typeid_Spaceship.name = none
    ∧ (RegisterCollisionMapFunction typeid_Spaceship typeid_Spaceship
        (some CollisionFunction.processSpaceshipSpaceshipCollision) false
        spaceshipsNull).theMap.find (typeid_Spaceship.name, typeid_Spaceship.name)
      = some none
    ∧ findCollisionFunction (RegisterCollisionMapFunction typeid_Spaceship typeid_Spaceship
          (some CollisionFunction.processSpaceshipSpaceshipCollision) false
          spaceshipsNull).theMap
        typeid_Spaceship.name typeid_Spaceship.name = none
    ∧ (RegisterCollisionMapFunction typeid_Spaceship typeid_Spaceship
        (some CollisionFunction.processSpaceshipSpaceshipCollision) false
        spaceshipsNull).theMap.size = spaceshipsNull.theMap.size
    ∧ ¬ ((RegisterCollisionMapFunction typeid_Spaceship typeid_Spaceship
          (some CollisionFunction.processSpaceshipSpaceshipCollision) false
          spaceshipsNull).theMap.find (typeid_Spaceship.name, typeid_Spaceship.name)
        = some (some CollisionFunction.processSpaceshipSpaceshipCollision))
    ∧ ¬ ((RegisterCollisionMapFunction typeid_Spaceship typeid_Spaceship
          (some CollisionFunction.processSpaceshipSpaceshipCollision) false
          spaceshipsNull).theMap.size = spaceshipsNull.theMap.size + 1) := by
  decide

/-- C8, amended: when the self-pair (A,A) has no entry in the registry, not
even one whose function pointer is null, after
`RegisterCollisionMapFunction(A, A, h, isSymmetric = false)` the registry
holds exactly one entry for (A,A), that entry maps to `h`, and the registry
has exactly one entry more than before. -/
theorem register_self_pair_once {Fn : Type} (st : ProgramState Fn) (A : type_info)
    (h : collisionFunctionPtr Fn)
    (hvacant : st.theMap.find (A.name, A.name) = none) :
    (RegisterCollisionMapFunction A A h false st).theMap.count (A.name, A.name) = 1
    ∧ (RegisterCollisionMapFunction A A h false st).theMap.find (A.name, A.name) = some h
    ∧ findCollisionFunction (RegisterCollisionMapFunction A A h false st).theMap
        A.name A.name = h
    ∧ (RegisterCollisionMapFunction A A h false st).theMap.size = st.theMap.size + 1 := by
  have hfind := collisionMap.find_insert_self_of_none (A.name, A.name) h st.theMap hvacant
  rw [theMap_register_false]
  refine ⟨?_, hfind, findCollisionFunction_of_find _ _ _ _ hfind, ?_⟩
  · rw [collisionMap.insert_of_find_none _ _ hvacant, collisionMap.count_place_self,
      collisionMap.count_eq_zero_of_find_none _ _ hvacant]
  · rw [collisionMap.insert_of_find_none _ _ hvacant]
    exact collisionMap.length_place _ _

/-- C8 amended, at the program's first registration, `spaceships`. -/
theorem register_self_pair_once_witness :
    (initialState CollisionFunction).theMap.find
        (typeid_Spaceship.name, typeid_Spaceship.name) = none
    ∧ (RegisterCollisionMapFunction typeid_Spaceship typeid_Spaceship
        (some CollisionFunction.processSpaceshipSpaceshipCollision) false
        (initialState CollisionFunction)).theMap.count
        (typeid_Spaceship.name, typeid_Spaceship.name) = 1
    ∧ (RegisterCollisionMapFunction typeid_Spaceship typeid_Spaceship
        (some CollisionFunction.processSpaceshipSpaceshipCollision) false
        (initialState CollisionFunction)).theMap.size
      = (initialState CollisionFunction).theMap.size + 1 :=
  ⟨by decide,
    (register_self_pair_once (initialState CollisionFunction) typeid_Spaceship
      (some CollisionFunction.processSpaceshipSpaceshipCollision) (by decide)).1,
    (register_self_pair_once (initialState CollisionFunction) typeid_Spaceship
      (some CollisionFunction.processSpaceshipSpaceshipCollision) (by decide)).2.2.2⟩

/-- C9: registration is first-wins and says nothing about it.  A pair (X,Y)
that maps to `g` before `RegisterCollisionMapFunction(A, B, h, isSymmetric)`
maps to `g` after it, whatever A, B, `h` and the flag are, so
`findCollisionFunction(X,Y)` keeps returning `g`; and the call writes its
usual line "Registering function for collision between A and B" and nothing
else. -/
theorem register_first_wins {Fn : Type} (st : ProgramState Fn) (A B : type_info)
    (g h : collisionFunctionPtr Fn) (isSymmetric : Bool) (X Y : String)
    (hg : st.theMap.find (X, Y) = some g) :
    (RegisterCollisionMapFunction A B h isSymmetric st).theMap.find (X, Y) = some g
    ∧ findCollisionFunction (RegisterCollisionMapFunction A B h isSymmetric st).theMap X Y = g
    ∧ (RegisterCollisionMapFunction A B h isSymmetric st).cout
        = st.cout ++ "Registering function for collision between " ++
            A.name ++ " and " ++ B.name ++ "\n" := by
  have hfind : (RegisterCollisionMapFunction A B h isSymmetric st).theMap.find (X, Y)
      = some g := by
    cases isSymmetric with
    | false =>
      rw [theMap_register_false]
      exact collisionMap.find_insert_of_some _ _ h g _ hg
    | true =>
      rw [theMap_register_true]
      exact collisionMap.find_insert_of_some _ _ h g _
        (collisionMap.find_insert_of_some _ _ h g _ hg)
  exact ⟨hfind, findCollisionFunction_of_find _ _ _ _ hfind, cout_register A B h isSymmetric st⟩

/-- C9 at the program's bootstrap: registering (Spaceship, Spaceship) again
with another handler leaves the ship-ship handler in place. -/
theorem register_first_wins_witness :
    bootstrap.theMap.find (typeid_Spaceship.name, typeid_Spaceship.name)
        = some (some CollisionFunction.processSpaceshipSpaceshipCollision)
    ∧ findCollisionFunction (RegisterCollisionMapFunction typeid_Spaceship typeid_Spaceship
          (some CollisionFunction.processSpaceshipAsteroidCollision) true bootstrap).theMap
        typeid_Spaceship.name typeid_Spaceship.name
      = some CollisionFunction.processSpaceshipSpaceshipCollision :=
  ⟨by decide,
    (register_first_wins bootstrap typeid_Spaceship typeid_Spaceship
      (some CollisionFunction.processSpaceshipSpaceshipCollision)
      (some CollisionFunction.processSpaceshipAsteroidCollision) true
      typeid_Spaceship.name typeid_Spaceship.name (by decide)).2.1⟩

/-- C10: end to end.  With the three registrations made from the empty
registry and the four entities of the scenario (any speeds, any three
handlers, whatever a call of a handler does, whatever has been written so
far): (ship1, ship2) is handled by the ship-ship handler; (ship1, station)
is not handled; (station, rock) and (rock, station) are handled by the
station-rock handler and (rock, ship1) by the ship-rock handler, each with
the arguments in the order given; (ship2, station) is not handled. -/
theorem processCollision_end_to_end {Fn : Type}
    (call : Fn → GameObject → GameObject → ProgramState Fn → ProgramState Fn)
    (shipShip shipRock stationRock : Fn) (v1 v2 v3 v4 : Float) (cout : String) :
    let ship1 := GameObject.Spaceship "Enterprise" v1
    let ship2 := GameObject.Spaceship "Falcon" v2
    let station := GameObject.Spacestation "DS9" v3
    let rock := GameObject.Asteroid "Halley" v4
    let st : ProgramState Fn :=
      { theMap := (endToEndRegistry shipShip shipRock stationRock).theMap, cout := cout }
    let notHandled : ProgramState Fn :=
      { theMap := st.theMap, cout := cout ++ "No collision function pointer exists\n" }
    processCollision call ship1 ship2 st = call shipShip ship1 ship2 st
    ∧ processCollision call ship1 station st = notHandled
    ∧ processCollision call station rock st = call stationRock station rock st
    ∧ processCollision call rock station st = call stationRock rock station st
    ∧ processCollision call rock ship1 st = call shipRock rock ship1 st
    ∧ processCollision call ship2 station st = notHandled := by
  intro ship1 ship2 station rock st notHandled
  refine ⟨rfl, rfl, rfl, rfl, rfl, rfl⟩

/-- C11: the program's bootstrap registers every supported pair exactly once.
Each of the seven inserts made by the four static `CollisionRegister`
objects finds its ordered pair without an entry (the registry grows from 0
to 1, 3, 5 and 7 entries), the resulting registry holds exactly the seven
entries listed, and among the three classes the lookup returns nothing
exactly for (Spacestation, Spacestation) and (Asteroid, Asteroid). -/
theorem bootstrap_registers_each_pair_once :
    bootstrap = spacestationAsteroid
    ∧ (initialState CollisionFunction).theMap.find
        (typeid_Spaceship.name, typeid_Spaceship.name) = none
    ∧ spaceships.theMap.find (typeid_Spaceship.name, typeid_Asteroid.name) = none
    ∧ (spaceships.theMap.insert ((typeid_Spaceship.name, typeid_Asteroid.name),
          some CollisionFunction.processSpaceshipAsteroidCollision)).find
        (typeid_Asteroid.name, typeid_Spaceship.name) = none
    ∧ spaceshipAsteroid.theMap.find (typeid_Spaceship.name, typeid_Spacestation.name) = none
    ∧ (spaceshipAsteroid.theMap.insert ((typeid_Spaceship.name, typeid_Spacestation.name),
          some CollisionFunction.processSpaceshipSpacestaionCollision)).find
        (typeid_Spacestation.name, typeid_Spaceship.name) = none
    ∧ spaceshipSpacestation.theMap.find (typeid_Asteroid.name, typeid_Spacestation.name) = none
    ∧ (spaceshipSpacestation.theMap.insert ((typeid_Asteroid.name, typeid_Spacestation.name),
          some CollisionFunction.processAsteroidSpacestaionCollision)).find
        (typeid_Spacestation.name, typeid_Asteroid.name) = none
    ∧ (initialState CollisionFunction).theMap.size = 0
    ∧ spaceships.theMap.size = 1
    ∧ spaceshipAsteroid.theMap.size = 3
    ∧ spaceshipSpacestation.theMap.size = 5
    ∧ bootstrap.theMap.size = 7
    ∧ bootstrap.theMap =
        [((typeid_Asteroid.name, typeid_Spaceship.name),
            some CollisionFunction.processSpaceshipAsteroidCollision),
         ((typeid_Asteroid.name, typeid_Spacestation.name),
            some CollisionFunction.processAsteroidSpacestaionCollision),
         ((typeid_Spaceship.name, typeid_Asteroid.name),
            some CollisionFunction.processSpaceshipAsteroidCollision),
         ((typeid_Spaceship.name, typeid_Spaceship.name),
            some CollisionFunction.processSpaceshipSpaceshipCollision),
         ((typeid_Spaceship.name, typeid_Spacestation.name),
            some CollisionFunction.processSpaceshipSpacestaionCollision),
         ((typeid_Spacestation.name, typeid_Asteroid.name),
            some CollisionFunction.processAsteroidSpacestaionCollision),
         ((typeid_Spacestation.name, typeid_Spaceship.name),
            some CollisionFunction.processSpaceshipSpacestaionCollision)]
    ∧ ∀ a b : GameObject,
        findCollisionFunction bootstrap.theMap (typeid a).name (typeid b).name = none
          ↔ ((typeid a = typeid_Spacestation ∧ typeid b = typeid_Spacestation)
              ∨ (typeid a = typeid_Asteroid ∧ typeid b = typeid_Asteroid)) := by
  refine ⟨rfl, by decide, by decide, by decide, by decide, by decide, by decide, by decide,
    by decide, by decide, by decide, by decide, by decide, by decide, ?_⟩
  intro a b
  cases a <;> cases b <;> simp only [typeid] <;> decide

/-- The type key of an object is that of its class, whatever its name and
speed. -/
theorem typeid_name_eq_iff_sameClass (a b : GameObject) :
    a.sameClass b = true ↔ (typeid a).name = (typeid b).name := by
  cases a <;> cases b <;> simp only [typeid, GameObject.sameClass] <;> decide

/-- C12: the type key used for dispatch depends on the concrete class only.
Two objects have equal keys exactly when they are of the same class, whatever
their names and speeds; the key of an object is the key its class is
registered under; and so, in every registry, `processCollision` on two pairs
of objects whose classes agree position by position finds the same handler
and calls it on each pair, or finds none and reports that for both. -/
theorem processCollision_depends_on_classes_only :
    (∀ a b : GameObject, a.sameClass b = true ↔ (typeid a).name = (typeid b).name)
    ∧ (∀ (n : String) (v : Float), typeid (GameObject.Spaceship n v) = typeid_Spaceship)
    ∧ (∀ (n : String) (v : Float), typeid (GameObject.Spacestation n v) = typeid_Spacestation)
    ∧ (∀ (n : String) (v : Float), typeid (GameObject.Asteroid n v) = typeid_Asteroid)
    ∧ ∀ (Fn : Type)
        (call : Fn → GameObject → GameObject → ProgramState Fn → ProgramState Fn)
        (st : ProgramState Fn) (a b a' b' : GameObject),
        a.sameClass a' = true → b.sameClass b' = true →
        findCollisionFunction st.theMap (typeid a).name (typeid b).name
          = findCollisionFunction st.theMap (typeid a').name (typeid b').name
        ∧ ((∃ h : Fn,
              findCollisionFunction st.theMap (typeid a).name (typeid b).name = some h
              ∧ processCollision call a b st = call h a b st
              ∧ processCollision call a' b' st = call h a' b' st)
            ∨ (findCollisionFunction st.theMap (typeid a).name (typeid b).name = none
              ∧ processCollision call a b st
                = { theMap := st.theMap,
                    cout := st.cout ++ "No collision function pointer exists\n" }
              ∧ processCollision call a' b' st
                = { theMap := st.theMap,
                    cout := st.cout ++ "No collision function pointer exists\n" })) := by
  refine ⟨typeid_name_eq_iff_sameClass, fun _ _ => rfl, fun _ _ => rfl, fun _ _ => rfl, ?_⟩
  intro Fn call st a b a' b' ha hb
  have hka := (typeid_name_eq_iff_sameClass a a').mp ha
  have hkb := (typeid_name_eq_iff_sameClass b b').mp hb
  refine ⟨by rw [hka, hkb], ?_⟩
  cases hfound : findCollisionFunction st.theMap (typeid a).name (typeid b).name with
  | none =>
    have hfound' := hfound
    rw [hka, hkb] at hfound'
    exact Or.inr ⟨rfl, by simp [processCollision, hfound], by simp [processCollision, hfound']⟩
  | some h =>
    have hfound' := hfound
    rw [hka, hkb] at hfound'
    exact Or.inl ⟨h, rfl, by simp [processCollision, hfound],
      by simp [processCollision, hfound']⟩

/-- C12 at the program's bootstrap: the two ships of `main` and two other
ships, of other names and speeds, reach the same ship-ship handler. -/
theorem processCollision_depends_on_classes_only_witness :
    (GameObject.Spaceship "Enterprise" 1000).sameClass (GameObject.Spaceship "Voyager" 3) = true
    ∧ (GameObject.Spaceship "Millenium Falcon" 2000).sameClass
        (GameObject.Spaceship "Rocinante" 7) = true
    ∧ findCollisionFunction bootstrap.theMap
        (typeid (GameObject.Spaceship "Enterprise" 1000)).name
        (typeid (GameObject.Spaceship "Millenium Falcon" 2000)).name
      = findCollisionFunction bootstrap.theMap
        (typeid (GameObject.Spaceship "Voyager" 3)).name
        (typeid (GameObject.Spaceship "Rocinante" 7)).name :=
  ⟨rfl, rfl,
    (processCollision_depends_on_classes_only.2.2.2.2 CollisionFunction callCollisionFunction
      bootstrap (GameObject.Spaceship "Enterprise" 1000)
      (GameObject.Spaceship "Millenium Falcon" 2000)
      (GameObject.Spaceship "Voyager" 3) (GameObject.Spaceship "Rocinante" 7) rfl rfl).1⟩

/-- Inserting under a key a second time, right after inserting under it,
changes nothing. -/
theorem gamestuff.collisionMap.insert_insert_same_key {Fn : Type} (theMap : collisionMap Fn)
    (key : gameObjectNames) (v w : collisionFunctionPtr Fn) :
    (theMap.insert (key, v)).insert (key, w) = theMap.insert (key, v) :=
  collisionMap.insert_of_find_some _ _ _ (collisionMap.find_insert_self key v theMap)

/-- A registration leaves an entry at the pair it names. -/
theorem find_register_pair_isSome {Fn : Type} (st : ProgramState Fn) (A B : type_info)
    (h : collisionFunctionPtr Fn) (isSymmetric : Bool) :
    ∃ g, (RegisterCollisionMapFunction A B h isSymmetric st).theMap.find (A.name, B.name)
      = some g := by
  cases isSymmetric with
  | false =>
    rw [theMap_register_false]
    exact ⟨_, collisionMap.find_insert_self _ h _⟩
  | true => exact ⟨_, find_register_true_pair st A B h⟩

/-- A symmetric registration keeps the registry symmetric. -/
theorem find_register_true_symmetric {Fn : Type} (st : ProgramState Fn) (A B : type_info)
    (h : collisionFunctionPtr Fn)
    (hsym : ∀ X Y : String, st.theMap.find (X, Y) = st.theMap.find (Y, X)) (X Y : String) :
    (RegisterCollisionMapFunction A B h true st).theMap.find (X, Y)
      = (RegisterCollisionMapFunction A B h true st).theMap.find (Y, X) := by
  by_cases hAB : (X, Y) = (A.name, B.name)
  · obtain ⟨hX, hY⟩ := Prod.mk.inj hAB
    subst hX hY
    rw [find_register_true_pair, find_register_true_swapped, hsym]
  · by_cases hBA : (X, Y) = (B.name, A.name)
    · obtain ⟨hX, hY⟩ := Prod.mk.inj hBA
      subst hX hY
      rw [find_register_true_pair, find_register_true_swapped, hsym]
    · have hAB' : (Y, X) ≠ (A.name, B.name) := by
        intro heq
        obtain ⟨hY, hX⟩ := Prod.mk.inj heq
        exact hBA (by rw [hX, hY])
      have hBA' : (Y, X) ≠ (B.name, A.name) := by
        intro heq
        obtain ⟨hY, hX⟩ := Prod.mk.inj heq
        exact hAB (by rw [hX, hY])
      rw [find_register_other st A B h true (X, Y) hAB (fun _ => hBA),
        find_register_other st A B h true (Y, X) hAB' (fun _ => hBA'), hsym]

/-- A sequence of symmetric registrations keeps a symmetric registry
symmetric. -/
theorem find_foldl_register_true_symmetric {Fn : Type}
    (calls : List (type_info × type_info × collisionFunctionPtr Fn)) (st : ProgramState Fn)
    (hsym : ∀ X Y : String, st.theMap.find (X, Y) = st.theMap.find (Y, X)) (X Y : String) :
    (calls.foldl (fun st c => RegisterCollisionMapFunction c.1 c.2.1 c.2.2 true st)
        st).theMap.find (X, Y)
      = (calls.foldl (fun st c => RegisterCollisionMapFunction c.1 c.2.1 c.2.2 true st)
        st).theMap.find (Y, X) := by
  induction calls generalizing st with
  | nil => exact hsym X Y
  | cons c rest ih =>
    rw [List.foldl_cons]
    exact ih _ (find_register_true_symmetric st c.1 c.2.1 c.2.2 hsym)

/-- C13: registering a self-pair with `isSymmetric = true` leaves the very
state that registering it with `isSymmetric = false` leaves; the second,
swapped insert finds the key (A,A) already there and does nothing, so the
two registries hold the same number of entries for (A,A). -/
theorem register_self_pair_symmetric_eq_asymmetric {Fn : Type} (st : ProgramState Fn)
    (A : type_info) (h : collisionFunctionPtr Fn) :
    RegisterCollisionMapFunction A A h true st = RegisterCollisionMapFunction A A h false st
    ∧ (st.theMap.insert ((A.name, A.name), h)).insert ((A.name, A.name), h)
        = st.theMap.insert ((A.name, A.name), h)
    ∧ (RegisterCollisionMapFunction A A h true st).theMap.count (A.name, A.name)
        = (RegisterCollisionMapFunction A A h false st).theMap.count (A.name, A.name) := by
  have hidem := collisionMap.insert_insert_same_key st.theMap (A.name, A.name) h h
  have hstate : RegisterCollisionMapFunction A A h true st
      = RegisterCollisionMapFunction A A h false st := by
    simp [RegisterCollisionMapFunction, hidem]
  exact ⟨hstate, hidem, by rw [hstate]⟩

/-- C14: symmetry is an invariant of symmetric-only registration.  In the
registry reached from the empty one by any finite sequence of calls
`RegisterCollisionMapFunction(A, B, h, true)`, with any keys and handlers,
occupied pairs registered again included, `findCollisionFunction(X,Y)` and
`findCollisionFunction(Y,X)` are equal for all X and Y. -/
theorem findCollisionFunction_symmetric_of_symmetric_registrations {Fn : Type}
    (calls : List (type_info × type_info × collisionFunctionPtr Fn)) (X Y : String) :
    findCollisionFunction (registerSymmetricSequence calls).theMap X Y
      = findCollisionFunction (registerSymmetricSequence calls).theMap Y X := by
  have hfind : (registerSymmetricSequence calls).theMap.find (X, Y)
      = (registerSymmetricSequence calls).theMap.find (Y, X) :=
    find_foldl_register_true_symmetric calls (initialState Fn) (fun _ _ => rfl) X Y
  simp only [findCollisionFunction, hfind]

/-- C15: registration is idempotent on the registry.  Making the same call
`RegisterCollisionMapFunction(A, B, h, s)` a second time right after the
first leaves the registry that the first call left. -/
theorem register_twice_registry_eq_once {Fn : Type} (st : ProgramState Fn) (A B : type_info)
    (h : collisionFunctionPtr Fn) (isSymmetric : Bool) :
    (RegisterCollisionMapFunction A B h isSymmetric
        (RegisterCollisionMapFunction A B h isSymmetric st)).theMap
      = (RegisterCollisionMapFunction A B h isSymmetric st).theMap := by
  obtain ⟨g, hg⟩ := find_register_pair_isSome st A B h isSymmetric
  cases isSymmetric with
  | false =>
    rw [theMap_register_false A B h (RegisterCollisionMapFunction A B h false st)]
    exact collisionMap.insert_of_find_some _ _ g hg
  | true =>
    rw [theMap_register_true A B h (RegisterCollisionMapFunction A B h true st),
      collisionMap.insert_of_find_some
        (RegisterCollisionMapFunction A B h true st).theMap ((A.name, B.name), h) g hg]
    exact collisionMap.insert_of_find_some _ _ _ (find_register_true_swapped st A B h)
